import Mathlib

/-!
Verification development for the royalties-frontend binary account codec,
instruction encoders, query pipelines and cache wrappers.

The definitions below are a shallow embedding of the TypeScript source:

* `src/lib/solana.ts` — client-side: `fetchAllListings` (with its inline
  listing parser), `fetchAllResaleListings`, `fetchPayoutPool`,
  `createRoyaltyListing` (payload construction), `depositPayout`,
  `listForResale`, `buyRoyaltyListing`, `claimPayout`, `cancelResale`.
* the server route handlers (unnamed source parts) — `parseListingAccount`,
  `fetchListingsFromChain`, `parseResaleListingAccount`,
  `fetchResaleListingsFromChain`.

Modelling conventions:

* Byte buffers are `List Nat` (each entry a byte value 0..255 in well-formed
  buffers).
* Node `Buffer.readUIntLE`-style reads throw `ERR_OUT_OF_RANGE` past the end
  of the buffer; a parse wrapped in `try/catch` returning `null` is therefore
  an `Option`-valued function, with `none` for every path that throws.
* `Buffer.slice` clamps to the buffer bounds (never throws); `data[i]` past
  the end yields `undefined` (modelled by `List.get?` returning `none`).
* `new PublicKey(buf)` (web3.js v1) stores the big-endian integer value of
  the byte buffer and throws only when that value needs more than 32 bytes;
  the slices taken by the parsers are at most 32 bytes long, so the
  constructor never throws there and a decoded key is modelled by the
  big-endian value of its slice (`beVal`).
* JavaScript `Number(bigint)` rounds to the nearest IEEE-754 double,
  ties-to-even; on integer inputs this is `f64round` / `jsNumInt` below.
* Fields of the decoded records that are pure floating-point display
  derivations of other fields (`percentage`, `priceUsdc`, `creatorRoyalty`,
  `totalDepositedUsdc`, `totalClaimedUsdc`, `availableToClaimUsdc`) are
  float divisions of the retained fields and are not modelled.
-/

set_option maxHeartbeats 4000000
set_option maxRecDepth 10000

namespace Royalties

/-- Little-endian value of a byte list: first byte is least significant. -/
def leVal : List Nat → Nat
  | [] => 0
  | b :: bs => b + 256 * leVal bs

/-- Little-endian byte encoding of `v` in exactly `w` bytes (mod 2^(8w)). -/
def leBytes : Nat → Nat → List Nat
  | 0, _ => []
  | w + 1, v => v % 256 :: leBytes w (v / 256)

/-- Big-endian value of a byte list, the integer a web3.js `PublicKey`
stores for a byte buffer. -/
def beVal (bs : List Nat) : Nat := bs.foldl (fun a b => a * 256 + b) 0

/-- `Buffer.slice(a, b)`: clamping, never throws. -/
def jsSlice (d : List Nat) (a b : Nat) : List Nat := (d.take b).drop a

/-- Node `Buffer.readUIntLE`-family read of `w` bytes at `off`:
`none` models the `ERR_OUT_OF_RANGE` throw when the read would run past
the end of the buffer. -/
def readLE (w : Nat) (d : List Nat) (off : Nat) : Option Nat :=
  if off + w ≤ d.length then some (leVal ((d.drop off).take w)) else none

/-- `Buffer.readUInt8`. -/
def readU8 (d : List Nat) (off : Nat) : Option Nat := readLE 1 d off

/-- `Buffer.readUInt16LE`. -/
def readU16 (d : List Nat) (off : Nat) : Option Nat := readLE 2 d off

/-- `Buffer.readUInt32LE`. -/
def readU32 (d : List Nat) (off : Nat) : Option Nat := readLE 4 d off

/-- `Buffer.readBigUInt64LE`. -/
def readU64 (d : List Nat) (off : Nat) : Option Nat := readLE 8 d off

/-- Signed interpretation of an unsigned 64-bit value (two's complement). -/
def toI64 (u : Nat) : Int :=
  if u < 2 ^ 63 then (u : Int) else (u : Int) - 2 ^ 64

/-- `Buffer.readBigInt64LE`: two's-complement signed read. -/
def readI64 (d : List Nat) (off : Nat) : Option Int :=
  (readLE 8 d off).map toI64

/-- Number of binary digits of `n`, fuel-bounded structural recursion
(`fuel` bounds the result; 128 suffices for every value arising from the
64-bit reads of this codec). -/
def bitLenGo : Nat → Nat → Nat
  | 0, _ => 0
  | fuel + 1, n => if n = 0 then 0 else bitLenGo fuel (n / 2) + 1

/-- Number of binary digits of `n` (0 for 0), for `n < 2^128`. -/
def bitLen (n : Nat) : Nat := bitLenGo 128 n

/-- JavaScript `Number(n)` for a non-negative big integer: round to the
nearest IEEE-754 double, ties to even (53 significant bits). -/
def f64round (n : Nat) : Nat :=
  if n < 2 ^ 53 then n
  else
    let e := bitLen n - 53
    let q := n / 2 ^ e
    let r := n % 2 ^ e
    let h := 2 ^ (e - 1)
    if r < h then q * 2 ^ e
    else if h < r then (q + 1) * 2 ^ e
    else (if q % 2 = 0 then q else q + 1) * 2 ^ e

/-- JavaScript `Number(x)` for a signed big integer. -/
def jsNumInt (x : Int) : Int :=
  if 0 ≤ x then (f64round x.toNat : Int) else -(f64round (-x).toNat : Int)

/-- A raw program-owned account as returned by the network collaborator:
an (opaque) address and the raw data bytes. -/
structure Account where
  pubkey : Nat
  data : List Nat
  deriving DecidableEq, Repr

/-- Listing status after decoding (`Unknown` for any unmapped byte). -/
inductive LStatus where
  | active
  | sold
  | cancelled
  | expired
  | unknown
  deriving DecidableEq, Repr

/-- Client-side status mapping in `fetchAllListings`:
`['Active','Sold','Cancelled','Expired'][statusValue] || 'Unknown'`,
where an out-of-bounds index (`data[offset]` past the end) is `undefined`
and also maps to `'Unknown'`. -/
def clientStatus : Option Nat → LStatus
  | some 0 => .active
  | some 1 => .sold
  | some 2 => .cancelled
  | some 3 => .expired
  | _ => .unknown

/-- Server-side status mapping in `parseListingAccount`:
`{0:'Active',1:'Sold',2:'Cancelled'}[statusByte] || 'Unknown'`. -/
def serverStatus (b : Nat) : LStatus :=
  if b = 0 then .active else if b = 1 then .sold
  else if b = 2 then .cancelled else .unknown

/-- The record built by the inline parser of `fetchAllListings`
(src/lib/solana.ts). 64-bit fields are stored through JavaScript
`Number(...)` conversions, exactly as the source does. -/
structure ClientListing where
  pubkey : Nat
  creator : Nat
  nftMint : Nat
  metadataUri : List Nat
  percentageBps : Nat
  durationSeconds : Nat
  startTimestamp : Int
  price : Nat
  resaleAllowed : Bool
  creatorRoyaltyBps : Nat
  status : LStatus
  deriving DecidableEq, Repr

/-- `RoyaltyListing` discriminator constant used by `fetchAllListings`
(src/lib/solana.ts line 534). -/
def ROYALTY_LISTING_DISCRIMINATOR_CLIENT : List Nat := [114, 27, 40, 41, 206, 120, 0, 66]

/-- The try/catch-wrapped map callback of `fetchAllListings`
(src/lib/solana.ts lines 545-617): parse one account, `none` models the
caught throw (the callback returns `null`). -/
def parseListingClient (a : Account) : Option ClientListing := do
  let d := a.data
  let creator := beVal (jsSlice d 8 40)
  let nftMint := beVal (jsSlice d 40 72)
  let uriLength ← readU32 d 72
  let metadataUri := jsSlice d 76 (76 + uriLength)
  let o := 76 + uriLength
  let percentageBps ← readU16 d o
  let durationSeconds ← readU64 d (o + 2)
  let startTimestamp ← readI64 d (o + 10)
  let price ← readU64 d (o + 18)
  let resaleAllowed := d.get? (o + 26) = some 1
  let creatorRoyaltyBps ← readU16 d (o + 27)
  let statusValue := d.get? (o + 29)
  pure {
    pubkey := a.pubkey
    creator := creator
    nftMint := nftMint
    metadataUri := metadataUri
    percentageBps := percentageBps
    durationSeconds := f64round durationSeconds
    startTimestamp := jsNumInt startTimestamp
    price := f64round price
    resaleAllowed := resaleAllowed
    creatorRoyaltyBps := creatorRoyaltyBps
    status := clientStatus statusValue }

/-- The discriminator filter of `fetchAllListings` (lines 537-541):
`data.length < 8` is rejected, then every of the 8 bytes must match. -/
def listingFilterClient (a : Account) : Bool :=
  decide (8 ≤ a.data.length) && decide (a.data.take 8 = ROYALTY_LISTING_DISCRIMINATOR_CLIENT)

/-- The decode pipeline of `fetchAllListings`: discriminator filter, then
per-account parse (nulls filtered out by `.filter(Boolean)`). -/
def decodeListingsClient (accs : List Account) : List ClientListing :=
  (accs.filter listingFilterClient).filterMap parseListingClient

/-- Modelled from the spec: the CacheLayer (`src/lib/cache`, not present
under src/) — `get(key)` returns the stored value while an unexpired entry
exists and `Miss` otherwise; `set(key, value, ttl)` stores. The state of
one cache key is abstracted as `Option α`: `some v` is an unexpired entry
holding `v`, `none` is a miss (absent or expired). -/
abbrev CacheState (α : Type) : Type := Option α

/-- `fetchAllListings` (src/lib/solana.ts lines 516-629) as a function of
the cache state for `CACHE_KEYS.ALL_LISTINGS`, the `forceRefresh` flag and
the outcome of `connection.getProgramAccounts` (`Except.error` models a
throw). Returns the listings together with the cache state after the call.
The source returns the decoded array at line 618; the `cache.set` at
line 621 sits after that `return` and is unreachable, so the fetch path
leaves the cache unchanged. A thrown fetch is caught and `[]` returned. -/
def fetchAllListings (cached : CacheState (List ClientListing)) (forceRefresh : Bool)
    (fetched : Except Unit (List Account)) :
    List ClientListing × CacheState (List ClientListing) :=
  match forceRefresh, cached with
  | false, some xs => (xs, some xs)
  | _, _ =>
    match fetched with
    | .ok accs => (decodeListingsClient accs, cached)
    | .error _ => ([], cached)

/-- The record built by the map of `fetchAllResaleListings`
(src/lib/solana.ts lines 657-684). -/
structure ClientResale where
  pubkey : Nat
  seller : Nat
  royaltyListing : Nat
  nftMint : Nat
  price : Nat
  listedAt : Int
  deriving DecidableEq, Repr

/-- The map body of `fetchAllResaleListings`: it performs no discriminator
check at all (offset 8 is skipped directly). It is not individually
try/catch-wrapped, so a throw (out-of-range read) escapes to the outer
catch; `none` models that. -/
def parseResaleClient (a : Account) : Option ClientResale := do
  let d := a.data
  let seller := beVal (jsSlice d 8 40)
  let royaltyListing := beVal (jsSlice d 40 72)
  let nftMint := beVal (jsSlice d 72 104)
  let price ← readU64 d 104
  let listedAt ← readI64 d 112
  pure {
    pubkey := a.pubkey
    seller := seller
    royaltyListing := royaltyListing
    nftMint := nftMint
    price := f64round price
    listedAt := jsNumInt listedAt }

/-- `fetchAllResaleListings` (src/lib/solana.ts lines 634-695). The RPC
request carries a `dataSize: 121` filter, modelled by filtering the
fetched account set to 121-byte accounts; no discriminator is checked.
Unlike `fetchAllListings`, the `cache.set` here is reachable and stores
the decoded listings. A throw anywhere inside the `try` yields `[]`. -/
def fetchAllResaleListings (cached : CacheState (List ClientResale)) (forceRefresh : Bool)
    (fetched : Except Unit (List Account)) :
    List ClientResale × CacheState (List ClientResale) :=
  match forceRefresh, cached with
  | false, some xs => (xs, some xs)
  | _, _ =>
    match fetched with
    | .ok accs =>
      let sized := accs.filter fun a => decide (a.data.length = 121)
      match sized.mapM parseResaleClient with
      | some listings => (listings, some listings)
      | none => ([], cached)
    | .error _ => ([], cached)

/-- The record built by the server-side `parseListingAccount`. The 64-bit
fields are assembled from two 32-bit reads into exact big integers
(serialized as strings by the route), so they are kept exact here. -/
structure ServerListing where
  pubkey : Nat
  creator : Nat
  nftMint : Nat
  metadataUri : List Nat
  price : Nat
  percentageBps : Nat
  durationSeconds : Nat
  createdAt : Nat
  resaleAllowed : Bool
  resaleRoyaltyBps : Nat
  status : LStatus
  deriving DecidableEq, Repr

/-- `RoyaltyListing` discriminator constant of the server listing route. -/
def ROYALTY_LISTING_DISCRIMINATOR_SERVER : List Nat := [142, 180, 37, 203, 57, 212, 243, 45]

/-- Server-side `parseListingAccount`: checks its discriminator first
(`every` over the 8 constant bytes against `Array.from(data.slice(0,8))`;
a buffer shorter than 8 bytes compares `undefined` and fails), then reads
the fields in the server's order: price before percentage-bps. -/
def parseListingAccount (a : Account) : Option ServerListing := do
  let d := a.data
  if d.take 8 = ROYALTY_LISTING_DISCRIMINATOR_SERVER then
    let creator := beVal (jsSlice d 8 40)
    let nftMint := beVal (jsSlice d 40 72)
    let uriLength ← readU32 d 72
    let metadataUri := jsSlice d 76 (76 + uriLength)
    let o := 76 + uriLength
    let priceLow ← readU32 d o
    let priceHigh ← readU32 d (o + 4)
    let percentageBps ← readU16 d (o + 8)
    let durationLow ← readU32 d (o + 10)
    let durationHigh ← readU32 d (o + 14)
    let createdAtLow ← readU32 d (o + 18)
    let createdAtHigh ← readU32 d (o + 22)
    let resaleByte ← readU8 d (o + 26)
    let resaleRoyaltyBps ← readU16 d (o + 27)
    let statusByte ← readU8 d (o + 29)
    pure {
      pubkey := a.pubkey
      creator := creator
      nftMint := nftMint
      metadataUri := metadataUri
      price := priceHigh * 2 ^ 32 + priceLow
      percentageBps := percentageBps
      durationSeconds := durationHigh * 2 ^ 32 + durationLow
      createdAt := createdAtHigh * 2 ^ 32 + createdAtLow
      resaleAllowed := resaleByte = 1
      resaleRoyaltyBps := resaleRoyaltyBps
      status := serverStatus statusByte }
  else none

/-- Server-side `fetchListingsFromChain`: fetch every program account
(no size filter), parse each, and keep only successfully parsed records
whose status is `Active`. -/
def fetchListingsFromChain (accs : List Account) : List ServerListing :=
  accs.filterMap fun a =>
    match parseListingAccount a with
    | some p => if p.status = .active then some p else none
    | none => none

/-- The record built by the server-side `parseResaleListingAccount`. -/
structure ServerResale where
  pubkey : Nat
  seller : Nat
  originalListing : Nat
  nftMint : Nat
  price : Nat
  createdAt : Nat
  isActive : Bool
  deriving DecidableEq, Repr

/-- `ResaleListing` discriminator constant of the server resale route. -/
def RESALE_LISTING_DISCRIMINATOR : List Nat := [214, 254, 220, 107, 49, 129, 174, 134]

/-- Server-side `parseResaleListingAccount`: discriminator check first,
then the fixed resale layout. -/
def parseResaleListingAccount (a : Account) : Option ServerResale := do
  let d := a.data
  if d.take 8 = RESALE_LISTING_DISCRIMINATOR then
    let seller := beVal (jsSlice d 8 40)
    let originalListing := beVal (jsSlice d 40 72)
    let nftMint := beVal (jsSlice d 72 104)
    let priceLow ← readU32 d 104
    let priceHigh ← readU32 d 108
    let createdAtLow ← readU32 d 112
    let createdAtHigh ← readU32 d 116
    let isActive ← readU8 d 120
    pure {
      pubkey := a.pubkey
      seller := seller
      originalListing := originalListing
      nftMint := nftMint
      price := priceHigh * 2 ^ 32 + priceLow
      createdAt := createdAtHigh * 2 ^ 32 + createdAtLow
      isActive := isActive = 1 }
  else none

/-- Server-side `fetchResaleListingsFromChain`: parse every program
account, keep the parsed records whose active flag is set. -/
def fetchResaleListingsFromChain (accs : List Account) : List ServerResale :=
  accs.filterMap fun a =>
    match parseResaleListingAccount a with
    | some p => if p.isActive then some p else none
    | none => none

/-- The record built by `fetchPayoutPool` (src/lib/solana.ts lines
862-908). `availableToClaim` is `Number(totalDeposited - totalClaimed)`
on the BigInt values — a signed value with no invariant check. -/
structure PayoutPool where
  pubkey : Nat
  royaltyListing : Nat
  creator : Nat
  totalDeposited : Nat
  totalClaimed : Nat
  availableToClaim : Int
  depositedAt : Int
  period : Nat
  deriving DecidableEq, Repr

/-- The parse body of `fetchPayoutPool`: no discriminator check, offset 8
is skipped directly; the whole function body is try/catch-wrapped. -/
def parsePayoutPool (a : Account) : Option PayoutPool := do
  let d := a.data
  let royaltyListing := beVal (jsSlice d 8 40)
  let creator := beVal (jsSlice d 40 72)
  let totalDeposited ← readU64 d 72
  let totalClaimed ← readU64 d 80
  let depositedAt ← readI64 d 88
  let period ← readU64 d 96
  pure {
    pubkey := a.pubkey
    royaltyListing := royaltyListing
    creator := creator
    totalDeposited := f64round totalDeposited
    totalClaimed := f64round totalClaimed
    availableToClaim := jsNumInt ((totalDeposited : Int) - (totalClaimed : Int))
    depositedAt := jsNumInt depositedAt
    period := f64round period }

/-- `fetchPayoutPool`: `getAccountInfo` returning no account yields `null`;
otherwise the account data is parsed (a parse throw is caught to `null`). -/
def fetchPayoutPool (account : Option Account) : Option PayoutPool :=
  match account with
  | none => none
  | some a => parsePayoutPool a

/-- `Buffer.writeUInt16LE`: throws (`none`) outside 0..65535. -/
def wu16 (v : Nat) : Option (List Nat) :=
  if v < 2 ^ 16 then some (leBytes 2 v) else none

/-- `Buffer.writeUInt32LE`: throws (`none`) outside 0..2^32-1. -/
def wu32 (v : Nat) : Option (List Nat) :=
  if v < 2 ^ 32 then some (leBytes 4 v) else none

/-- `Buffer.writeBigUInt64LE`: throws (`none`) outside 0..2^64-1. -/
def wu64 (v : Nat) : Option (List Nat) :=
  if v < 2 ^ 64 then some (leBytes 8 v) else none

/-- Arguments of `createRoyaltyListing` (`CreateListingArgs`); the
metadata URI is kept as its UTF-8 byte sequence. -/
structure CreateListingArgs where
  metadataUri : List Nat
  percentageBps : Nat
  durationSeconds : Nat
  price : Nat
  resaleAllowed : Bool
  creatorRoyaltyBps : Nat
  deriving DecidableEq, Repr

/-- `create_listing` instruction discriminator (src/lib/solana.ts line 223). -/
def CREATE_LISTING_DISCRIMINATOR : List Nat := [18, 168, 45, 24, 191, 31, 117, 54]

/-- The instruction-data construction inside `createRoyaltyListing`
(src/lib/solana.ts lines 223-256): discriminator, then uri length (u32),
uri bytes, percentage bps (u16), duration (u64), price (u64),
resale-allowed (1 byte), creator royalty bps (u16), concatenated with
`Buffer.concat`. No argument-range validation is performed beyond what
the `write*` calls themselves throw on. -/
def createListingData (args : CreateListingArgs) : Option (List Nat) := do
  let metadataUriLen ← wu32 args.metadataUri.length
  let percentageBpsBytes ← wu16 args.percentageBps
  let durationSecondsBytes ← wu64 args.durationSeconds
  let priceBytes ← wu64 args.price
  let resaleAllowedBytes := [if args.resaleAllowed then 1 else 0]
  let creatorRoyaltyBpsBytes ← wu16 args.creatorRoyaltyBps
  pure (CREATE_LISTING_DISCRIMINATOR ++ metadataUriLen ++ args.metadataUri ++
    percentageBpsBytes ++ durationSecondsBytes ++ priceBytes ++
    resaleAllowedBytes ++ creatorRoyaltyBpsBytes)

/-- `deposit_payout` instruction discriminator (line 937). -/
def DEPOSIT_PAYOUT_DISCRIMINATOR : List Nat := [72, 20, 41, 177, 158, 74, 219, 104]

/-- Instruction data of `depositPayout`: discriminator then amount (u64). -/
def depositPayoutData (amount : Nat) : Option (List Nat) :=
  (wu64 amount).map fun amountBytes => DEPOSIT_PAYOUT_DISCRIMINATOR ++ amountBytes

/-- `list_for_resale` instruction discriminator (line 1105). -/
def LIST_FOR_RESALE_DISCRIMINATOR : List Nat := [235, 101, 201, 204, 83, 163, 213, 243]

/-- Instruction data of `listForResale`: discriminator then price (u64). -/
def listForResaleData (price : Nat) : Option (List Nat) :=
  (wu64 price).map fun priceBytes => LIST_FOR_RESALE_DISCRIMINATOR ++ priceBytes

/-- `buy_listing` instruction discriminator (line 412). -/
def BUY_LISTING_DISCRIMINATOR : List Nat := [115, 149, 42, 108, 44, 49, 140, 153]

/-- Instruction data of `buyRoyaltyListing`: the discriminator alone. -/
def buyListingData : List Nat := BUY_LISTING_DISCRIMINATOR

/-- `claim_payout` instruction discriminator (line 1025). -/
def CLAIM_PAYOUT_DISCRIMINATOR : List Nat := [127, 240, 132, 62, 227, 198, 146, 133]

/-- Instruction data of `claimPayout`: the discriminator alone. -/
def claimPayoutData : List Nat := CLAIM_PAYOUT_DISCRIMINATOR

/-- `cancel_resale` instruction discriminator (line 1348). -/
def CANCEL_RESALE_DISCRIMINATOR : List Nat := [215, 11, 117, 119, 200, 163, 110, 66]

/-- Instruction data of `cancelResale`: the discriminator alone. -/
def cancelResaleData : List Nat := CANCEL_RESALE_DISCRIMINATOR

/-- Modelled from the spec: the create-listing instruction payload —
`<8-byte discriminator><uri length (4, LE)><uri bytes><percentage bps (2)>`
`<duration (8)><price (8)><resale allowed (1, 0/1)><resale royalty bps (2)>`,
little-endian, no padding. Used as the reference layout the code encoder
is compared against. -/
def specCreateListingPayload (args : CreateListingArgs) : List Nat :=
  CREATE_LISTING_DISCRIMINATOR ++ leBytes 4 args.metadataUri.length ++ args.metadataUri ++
  leBytes 2 args.percentageBps ++ leBytes 8 args.durationSeconds ++ leBytes 8 args.price ++
  [if args.resaleAllowed then 1 else 0] ++ leBytes 2 args.creatorRoyaltyBps

/-- A well-formed client-layout listing buffer: client discriminator,
zeroed creator and mint identifiers, empty uri, then the post-uri fields
in the client parser's order (percentage bps, duration, start timestamp,
price, resale flag, royalty bps, status). -/
def clientListingBytes (bps dur ts price rb rbps st : Nat) : List Nat :=
  ROYALTY_LISTING_DISCRIMINATOR_CLIENT ++ List.replicate 32 0 ++ List.replicate 32 0 ++
  [0, 0, 0, 0] ++ leBytes 2 bps ++ leBytes 8 dur ++ leBytes 8 ts ++ leBytes 8 price ++
  [rb] ++ leBytes 2 rbps ++ [st]

/-- `clientListingBytes` truncated right before the status byte
(105 bytes: every fixed field except the final status byte). -/
def clientListingBytesNoStatus (bps dur ts price rb rbps : Nat) : List Nat :=
  ROYALTY_LISTING_DISCRIMINATOR_CLIENT ++ List.replicate 32 0 ++ List.replicate 32 0 ++
  [0, 0, 0, 0] ++ leBytes 2 bps ++ leBytes 8 dur ++ leBytes 8 ts ++ leBytes 8 price ++
  [rb] ++ leBytes 2 rbps

/-- A well-formed server-layout listing buffer: server discriminator,
zeroed identifiers, empty uri, then the post-uri fields in the server
parser's order (price first, then percentage bps, duration, created-at,
resale flag, royalty bps, status). -/
def serverListingBytes (price bps dur ca rb rbps st : Nat) : List Nat :=
  ROYALTY_LISTING_DISCRIMINATOR_SERVER ++ List.replicate 32 0 ++ List.replicate 32 0 ++
  [0, 0, 0, 0] ++ leBytes 8 price ++ leBytes 2 bps ++ leBytes 8 dur ++ leBytes 8 ca ++
  [rb] ++ leBytes 2 rbps ++ [st]

/-- A payout-pool account buffer with zeroed discriminator/identifier/
timestamp/period regions and the given deposited and claimed totals. -/
def payoutPoolBytes (td tc : Nat) : List Nat :=
  List.replicate 8 0 ++ List.replicate 32 0 ++ List.replicate 32 0 ++
  leBytes 8 td ++ leBytes 8 tc ++ leBytes 8 0 ++ leBytes 8 0

/-- Concrete fixture: an Active client-layout listing account. -/
def accActiveClient : Account := ⟨1, clientListingBytes 250 0 0 5000000 1 100 0⟩

/-- The record `parseListingClient` produces for `accActiveClient`. -/
def recActiveClient : ClientListing :=
  { pubkey := 1, creator := 0, nftMint := 0, metadataUri := [], percentageBps := 250,
    durationSeconds := 0, startTimestamp := 0, price := 5000000, resaleAllowed := true,
    creatorRoyaltyBps := 100, status := .active }

/-- Concrete fixture: an Active server-layout listing account. -/
def accActiveServer : Account := ⟨2, serverListingBytes 5000000 250 0 0 1 100 0⟩

/-- The record `parseListingAccount` produces for `accActiveServer`. -/
def recActiveServer : ServerListing :=
  { pubkey := 2, creator := 0, nftMint := 0, metadataUri := [], price := 5000000,
    percentageBps := 250, durationSeconds := 0, createdAt := 0, resaleAllowed := true,
    resaleRoyaltyBps := 100, status := .active }

/-- Concrete fixture: a 121-byte resale account with active flag 0. -/
def accInactiveResale : Account :=
  ⟨3, RESALE_LISTING_DISCRIMINATOR ++ List.replicate 112 0 ++ [0]⟩

/-- Concrete fixture: an account with an unrecognized discriminator. -/
def accUnknownKind : Account := ⟨4, List.replicate 8 9⟩

/-- Concrete fixture: a 121-byte all-zero account — right size for a
resale record, wrong discriminator. -/
def accForeign121 : Account := ⟨5, List.replicate 121 0⟩

/-- The record the client resale map builds for `accForeign121`. -/
def recForeign121 : ClientResale :=
  { pubkey := 5, seller := 0, royaltyListing := 0, nftMint := 0, price := 0, listedAt := 0 }

/-- Concrete fixture: create-listing arguments with both basis-point
fields at 10001 (out of the documented 0..10000 range). -/
def argsBps10001 : CreateListingArgs :=
  { metadataUri := [], percentageBps := 10001, durationSeconds := 0, price := 0,
    resaleAllowed := false, creatorRoyaltyBps := 10001 }

/-- Concrete fixture: a payout pool with more claimed than deposited. -/
def accPoolOverclaimed : Account := ⟨6, payoutPoolBytes 5 7⟩

/-- Concrete fixture: a client-layout listing whose price field holds
2^53 + 1, one above the largest run of exactly representable doubles. -/
def accHugePrice : Account := ⟨9, clientListingBytes 0 0 0 9007199254740993 0 0 0⟩

/-- Concrete fixture: a 105-byte client-layout listing buffer missing
only the final status byte. -/
def accNoStatusByte : Account := ⟨11, clientListingBytesNoStatus 250 0 0 1000000 1 100⟩

/-- Concrete fixture: client listing discriminator followed by only three
content bytes — passes the discriminator filter, too short to parse. -/
def accShortDisc : Account := ⟨12, ROYALTY_LISTING_DISCRIMINATOR_CLIENT ++ [1, 2, 3]⟩

/-- Concrete fixture: a three-byte account. -/
def accTiny : Account := ⟨13, [1, 2, 3]⟩

/-- Concrete fixture: valid create-listing arguments. -/
def argsValid : CreateListingArgs :=
  { metadataUri := [104, 105], percentageBps := 250, durationSeconds := 3600,
    price := 1000000, resaleAllowed := true, creatorRoyaltyBps := 500 }

/-- Values below 2^53 convert to a double exactly. -/
theorem f64round_of_lt (n : Nat) (h : n < 2 ^ 53) : f64round n = n := by
  unfold f64round
  rw [if_pos h]

/-- Evaluation of the client listing parser on a well-formed client-layout
buffer: each field is read at the client's offset for it. -/
theorem parseListingClient_wellFormed (pk bps dur ts price rb rbps st : Nat)
    (hbps : bps < 2 ^ 16) (hdur : dur < 2 ^ 64) (hts : ts < 2 ^ 64)
    (hprice : price < 2 ^ 64) (hrbps : rbps < 2 ^ 16) :
    parseListingClient ⟨pk, clientListingBytes bps dur ts price rb rbps st⟩ =
    some { pubkey := pk, creator := 0, nftMint := 0, metadataUri := [],
           percentageBps := bps, durationSeconds := f64round dur,
           startTimestamp := jsNumInt (toI64 ts),
           price := f64round price, resaleAllowed := decide (rb = 1),
           creatorRoyaltyBps := rbps, status := clientStatus (some st) } := by
  simp only [clientListingBytes, parseListingClient, ROYALTY_LISTING_DISCRIMINATOR_CLIENT,
    readU32, readU16, readU64, readI64, readLE, jsSlice, beVal, leBytes, leVal,
    List.replicate, List.cons_append, List.nil_append, List.append_eq, List.append_assoc,
    List.length_cons, List.length_nil, List.length_append,
    List.drop, List.take, List.get?, List.foldl, Option.map, Option.bind,
    Option.pure_def, Option.bind_eq_bind, Option.some.injEq, ClientListing.mk.injEq,
    Nat.reduceAdd, Nat.reduceMul, Nat.reduceLeDiff, reduceIte, Nat.reduceDiv,
    Nat.reduceMod, Nat.reducePow, Nat.add_zero, Nat.mul_zero, Nat.zero_add]
  refine ⟨trivial, trivial, trivial, trivial, by omega, congrArg f64round (by omega),
    congrArg (fun u => jsNumInt (toI64 u)) (by omega), congrArg f64round (by omega),
    trivial, by omega, trivial⟩

/-- Evaluation of the client listing parser on a buffer truncated right
before the status byte: every field parses, the out-of-range status index
yields `undefined`, and the record is returned with status `Unknown`. -/
theorem parseListingClient_noStatus (pk bps dur ts price rb rbps : Nat)
    (hbps : bps < 2 ^ 16) (hdur : dur < 2 ^ 64) (hts : ts < 2 ^ 64)
    (hprice : price < 2 ^ 64) (hrbps : rbps < 2 ^ 16) :
    parseListingClient ⟨pk, clientListingBytesNoStatus bps dur ts price rb rbps⟩ =
    some { pubkey := pk, creator := 0, nftMint := 0, metadataUri := [],
           percentageBps := bps, durationSeconds := f64round dur,
           startTimestamp := jsNumInt (toI64 ts),
           price := f64round price, resaleAllowed := decide (rb = 1),
           creatorRoyaltyBps := rbps, status := .unknown } := by
  simp only [clientListingBytesNoStatus, parseListingClient,
    ROYALTY_LISTING_DISCRIMINATOR_CLIENT,
    readU32, readU16, readU64, readI64, readLE, jsSlice, beVal, leBytes, leVal,
    List.replicate, List.cons_append, List.nil_append, List.append_eq, List.append_assoc,
    List.length_cons, List.length_nil, List.length_append, clientStatus,
    List.drop, List.take, List.get?, List.foldl, Option.map, Option.bind,
    Option.pure_def, Option.bind_eq_bind, Option.some.injEq, ClientListing.mk.injEq,
    Nat.reduceAdd, Nat.reduceMul, Nat.reduceLeDiff, reduceIte, Nat.reduceDiv,
    Nat.reduceMod, Nat.reducePow, Nat.add_zero, Nat.mul_zero, Nat.zero_add]
  refine ⟨trivial, trivial, trivial, trivial, by omega, congrArg f64round (by omega),
    congrArg (fun u => jsNumInt (toI64 u)) (by omega), congrArg f64round (by omega),
    trivial, by omega, trivial⟩

/-- Evaluation of the server listing parser on a well-formed server-layout
buffer: each field is read at the server's offset for it (price before
percentage bps) and the 64-bit fields are exact. -/
theorem parseListingAccount_wellFormed (pk price bps dur ca rb rbps st : Nat)
    (hprice : price < 2 ^ 64) (hbps : bps < 2 ^ 16) (hdur : dur < 2 ^ 64)
    (hca : ca < 2 ^ 64) (hrbps : rbps < 2 ^ 16) :
    parseListingAccount ⟨pk, serverListingBytes price bps dur ca rb rbps st⟩ =
    some { pubkey := pk, creator := 0, nftMint := 0, metadataUri := [],
           price := price, percentageBps := bps, durationSeconds := dur,
           createdAt := ca, resaleAllowed := decide (rb = 1),
           resaleRoyaltyBps := rbps, status := serverStatus st } := by
  simp only [serverListingBytes, parseListingAccount,
    ROYALTY_LISTING_DISCRIMINATOR_SERVER,
    readU32, readU16, readU8, readLE, jsSlice, beVal, leBytes, leVal,
    List.replicate, List.cons_append, List.nil_append, List.append_eq, List.append_assoc,
    List.length_cons, List.length_nil, List.length_append,
    List.drop, List.take, List.get?, List.foldl, Option.map, Option.bind,
    Option.pure_def, Option.bind_eq_bind, Option.some.injEq, ServerListing.mk.injEq,
    Nat.reduceAdd, Nat.reduceMul, Nat.reduceLeDiff, reduceIte, Nat.reduceDiv,
    Nat.reduceMod, Nat.reducePow, Nat.add_zero, Nat.mul_zero, Nat.zero_add]
  refine ⟨trivial, trivial, trivial, trivial, by omega, by omega, by omega, by omega,
    trivial, by omega, trivial⟩

/-- Evaluation of the payout-pool parser on a well-formed pool buffer. -/
theorem parsePayoutPool_wellFormed (pk td tc : Nat)
    (htd : td < 2 ^ 64) (htc : tc < 2 ^ 64) :
    parsePayoutPool ⟨pk, payoutPoolBytes td tc⟩ =
    some { pubkey := pk, royaltyListing := 0, creator := 0,
           totalDeposited := f64round td, totalClaimed := f64round tc,
           availableToClaim := jsNumInt ((td : Int) - (tc : Int)),
           depositedAt := 0, period := 0 } := by
  simp only [payoutPoolBytes, parsePayoutPool,
    readU32, readU16, readU64, readI64, readLE, jsSlice, beVal, leBytes, leVal,
    List.replicate, List.cons_append, List.nil_append, List.append_eq, List.append_assoc,
    List.length_cons, List.length_nil, List.length_append,
    List.drop, List.take, List.get?, List.foldl, Option.map, Option.bind,
    Option.pure_def, Option.bind_eq_bind, Option.some.injEq, PayoutPool.mk.injEq,
    Nat.reduceAdd, Nat.reduceMul, Nat.reduceLeDiff, reduceIte, Nat.reduceDiv,
    Nat.reduceMod, Nat.reducePow, Nat.add_zero, Nat.mul_zero, Nat.zero_add]
  refine ⟨trivial, trivial, trivial, congrArg f64round (by omega),
    congrArg f64round (by omega), congrArg jsNumInt (by omega), by decide, by decide⟩

/-- C1: for every fetched set of exactly three accounts — a decodable
listing account with status byte 0 (Active), a resale-discriminator
account with active flag 0, and an account with an unrecognized
discriminator — the listing query returns exactly the one Active listing
record, both in the client implementation (`fetchAllListings`) and in the
server implementation (`fetchListingsFromChain`); the resale and unknown
accounts are excluded without an error. -/
theorem listActiveListings_scenario
    (a sa b c : Account) (r : ClientListing) (s : ServerListing)
    (haf : listingFilterClient a = true)
    (har : parseListingClient a = some r)
    (hast : r.status = .active)
    (hsa : parseListingAccount sa = some s)
    (hsst : s.status = .active)
    (hbd : b.data.take 8 = RESALE_LISTING_DISCRIMINATOR)
    (hbflag : b.data.get? 120 = some 0)
    (hcd : c.data.take 8 ≠ ROYALTY_LISTING_DISCRIMINATOR_CLIENT)
    (hcs : c.data.take 8 ≠ ROYALTY_LISTING_DISCRIMINATOR_SERVER)
    (hcr : c.data.take 8 ≠ RESALE_LISTING_DISCRIMINATOR) :
    (fetchAllListings none false (.ok [a, b, c])).1 = [r] ∧
    fetchListingsFromChain [sa, b, c] = [s] := by
  constructor
  · have hbf : listingFilterClient b = false := by
      unfold listingFilterClient
      rw [hbd]
      simp [RESALE_LISTING_DISCRIMINATOR, ROYALTY_LISTING_DISCRIMINATOR_CLIENT]
    have hcf : listingFilterClient c = false := by
      unfold listingFilterClient
      simp [hcd]
    simp [fetchAllListings, decodeListingsClient, List.filter, haf, hbf, hcf, har]
  · have hbn : parseListingAccount b = none := by
      simp [parseListingAccount, hbd, RESALE_LISTING_DISCRIMINATOR,
        ROYALTY_LISTING_DISCRIMINATOR_SERVER]
    have hcn : parseListingAccount c = none := by
      simp [parseListingAccount, hcs]
    simp [fetchListingsFromChain, hsa, hsst, hbn, hcn]

/-- Witness for C1 at concrete accounts. -/
theorem listActiveListings_scenario_witness :
    (fetchAllListings none false (.ok [accActiveClient, accInactiveResale, accUnknownKind])).1
      = [recActiveClient] ∧
    fetchListingsFromChain [accActiveServer, accInactiveResale, accUnknownKind]
      = [recActiveServer] :=
  listActiveListings_scenario accActiveClient accActiveServer accInactiveResale accUnknownKind
    recActiveClient recActiveServer (by decide) (by decide) (by decide) (by decide) (by decide)
    (by decide) (by decide) (by decide) (by decide) (by decide)

/-- C2 counterexample: the two listing decoders do not recognize the same
discriminator constant — a buffer the client pipeline accepts and decodes
is `NotThisKind` (null) to the server decoder, and a buffer the server
decoder accepts is dropped by the client discriminator filter. -/
theorem listing_decoders_not_equivalent :
    (listingFilterClient accActiveClient = true
      ∧ (parseListingClient accActiveClient).isSome
      ∧ parseListingAccount accActiveClient = none)
    ∧ ((parseListingAccount accActiveServer).isSome
      ∧ listingFilterClient accActiveServer = false) := by
  decide

/-- C2 amended: the two decoders are not equivalent. The client decoder
recognizes [114,27,40,41,206,120,0,66] and reads, after the uri,
percentage bps (2), duration (8), created-at (8), price (8), resale
flag (1), royalty bps (2), status (1) with byte 3 mapping to Expired; the
server decoder recognizes [142,180,37,203,57,212,243,45] and reads price
(8) first, then percentage bps (2), duration (8), created-at (8), resale
flag (1), royalty bps (2), status (1), mapping only bytes 0..2 and
sending 3 to Unknown. -/
theorem listing_decoders_layouts (pk bps dur ts price rb rbps st : Nat)
    (hbps : bps < 2 ^ 16) (hdur : dur < 2 ^ 64) (hts : ts < 2 ^ 64)
    (hprice : price < 2 ^ 64) (hrbps : rbps < 2 ^ 16) :
    parseListingClient ⟨pk, clientListingBytes bps dur ts price rb rbps st⟩ =
      some { pubkey := pk, creator := 0, nftMint := 0, metadataUri := [],
             percentageBps := bps, durationSeconds := f64round dur,
             startTimestamp := jsNumInt (toI64 ts),
             price := f64round price, resaleAllowed := decide (rb = 1),
             creatorRoyaltyBps := rbps, status := clientStatus (some st) }
    ∧ parseListingAccount ⟨pk, serverListingBytes price bps dur ts rb rbps st⟩ =
      some { pubkey := pk, creator := 0, nftMint := 0, metadataUri := [],
             price := price, percentageBps := bps, durationSeconds := dur,
             createdAt := ts, resaleAllowed := decide (rb = 1),
             resaleRoyaltyBps := rbps, status := serverStatus st }
    ∧ ROYALTY_LISTING_DISCRIMINATOR_CLIENT ≠ ROYALTY_LISTING_DISCRIMINATOR_SERVER
    ∧ clientStatus (some 3) = .expired
    ∧ serverStatus 3 = .unknown :=
  ⟨parseListingClient_wellFormed pk bps dur ts price rb rbps st hbps hdur hts hprice hrbps,
   parseListingAccount_wellFormed pk price bps dur ts rb rbps st hprice hbps hdur hts hrbps,
   by decide, by decide, by decide⟩

/-- Witness for C2's amended statement at concrete field values. -/
theorem listing_decoders_layouts_witness :
    parseListingClient ⟨21, clientListingBytes 10000 86400 1700000000 123456789 1 500 3⟩ =
      some { pubkey := 21, creator := 0, nftMint := 0, metadataUri := [],
             percentageBps := 10000, durationSeconds := 86400,
             startTimestamp := 1700000000, price := 123456789, resaleAllowed := true,
             creatorRoyaltyBps := 500, status := .expired }
    ∧ parseListingAccount ⟨21, serverListingBytes 123456789 10000 86400 1700000000 1 500 3⟩ =
      some { pubkey := 21, creator := 0, nftMint := 0, metadataUri := [],
             price := 123456789, percentageBps := 10000, durationSeconds := 86400,
             createdAt := 1700000000, resaleAllowed := true,
             resaleRoyaltyBps := 500, status := .unknown }
    ∧ ROYALTY_LISTING_DISCRIMINATOR_CLIENT ≠ ROYALTY_LISTING_DISCRIMINATOR_SERVER
    ∧ clientStatus (some 3) = .expired
    ∧ serverStatus 3 = .unknown :=
  listing_decoders_layouts 21 10000 86400 1700000000 123456789 1 500 3
    (by decide) (by decide) (by decide) (by decide) (by decide)

/-- C3: the cache-aside algorithm of `fetchAllListings` is broken on the
miss path. The decoded result is returned at the `return` before the
`cache.set`, so after a miss-then-fetch the cache is still empty and an
immediately repeated call fetches from the network again (here: a second
call whose fetch returns nothing yields `[]` instead of the cached
listings). The hit path itself works: a pre-populated unexpired entry is
returned without consulting the fetch outcome. -/
theorem fetchAllListings_cache_dead_store :
    (fetchAllListings none false (.ok [accActiveClient])).1 = [recActiveClient]
    ∧ (fetchAllListings none false (.ok [accActiveClient])).2 = none
    ∧ (fetchAllListings (fetchAllListings none false (.ok [accActiveClient])).2 false
        (.ok [])).1 = []
    ∧ (fetchAllListings (some [recActiveClient]) false (.error ())).1 = [recActiveClient] := by
  decide

/-- C4 counterexample: a 121-byte account whose first 8 bytes differ from
the resale discriminator is not excluded by the client resale query — it
is decoded and returned, because `fetchAllResaleListings` relies on the
`dataSize: 121` filter alone; the server-side decoder does return
`NotThisKind` (null) for the same buffer. -/
theorem resale_query_accepts_foreign_discriminator :
    (List.replicate 121 0).take 8 ≠ RESALE_LISTING_DISCRIMINATOR
    ∧ (fetchAllResaleListings none false (.ok [accForeign121])).1 = [recForeign121]
    ∧ parseResaleListingAccount accForeign121 = none := by
  decide

/-- C4 amended: the server-side resale decoder returns `NotThisKind`
(null) for every buffer of length ≥ 8 whose first 8 bytes differ from the
resale discriminator; the client-side resale query performs no
discriminator comparison at all — every 121-byte buffer decodes. -/
theorem resale_discriminator_check_split :
    (∀ a : Account, 8 ≤ a.data.length → a.data.take 8 ≠ RESALE_LISTING_DISCRIMINATOR →
      parseResaleListingAccount a = none)
    ∧ (∀ a : Account, a.data.length = 121 → (parseResaleClient a).isSome) := by
  constructor
  · intro a _ hne
    simp [parseResaleListingAccount, hne]
  · intro a hlen
    simp [parseResaleClient, readU32, readU64, readI64, readLE, hlen]

/-- Witness for C4's amended statement. -/
theorem resale_discriminator_check_split_witness :
    parseResaleListingAccount accUnknownKind = none
    ∧ (parseResaleClient accForeign121).isSome :=
  ⟨resale_discriminator_check_split.1 accUnknownKind (by decide) (by decide),
   resale_discriminator_check_split.2 accForeign121 (by decide)⟩

/-- C5 counterexample: `createRoyaltyListing` encodes `percentageBps =`
`creatorRoyaltyBps = 10001` without any validation — the full payload is
produced (the two bps fields carry the little-endian bytes [17, 39] of
10001) instead of failing with `InvalidArgument` before any byte. -/
theorem createListing_accepts_10001_bps :
    createListingData argsBps10001 =
      some (CREATE_LISTING_DISCRIMINATOR ++ [0, 0, 0, 0] ++ [17, 39] ++
        List.replicate 8 0 ++ List.replicate 8 0 ++ [0] ++ [17, 39]) := by
  decide

/-- C5 amended: the encoder performs no basis-point range validation —
every argument record whose basis-point fields fit in 16 bits (and whose
64-bit fields fit in 64 bits) is encoded into a payload; only the write
primitives' own width bounds can fail. -/
theorem createListingData_no_range_validation (args : CreateListingArgs)
    (hu : args.metadataUri.length < 2 ^ 32) (hb : args.percentageBps < 2 ^ 16)
    (hd : args.durationSeconds < 2 ^ 64) (hp : args.price < 2 ^ 64)
    (hr : args.creatorRoyaltyBps < 2 ^ 16) :
    (createListingData args).isSome := by
  have h1 : args.metadataUri.length < 4294967296 := by omega
  have h2 : args.percentageBps < 65536 := by omega
  have h3 : args.durationSeconds < 18446744073709551616 := by omega
  have h4 : args.price < 18446744073709551616 := by omega
  have h5 : args.creatorRoyaltyBps < 65536 := by omega
  simp [createListingData, wu32, wu16, wu64, h1, h2, h3, h4, h5]

/-- Witness for C5's amended statement at the out-of-range arguments. -/
theorem createListingData_no_range_validation_witness :
    (createListingData argsBps10001).isSome :=
  createListingData_no_range_validation argsBps10001
    (by decide) (by decide) (by decide) (by decide) (by decide)

/-- C6 counterexample: for a decoded payout pool with total_claimed (7)
exceeding total_deposited (5), `fetchPayoutPool` returns a record whose
`availableToClaim` is the negative difference -2 — no invariant-violation
error is surfaced. -/
theorem payout_pool_negative_available :
    (fetchPayoutPool (some accPoolOverclaimed)).map (fun p => p.availableToClaim)
      = some (-2)
    ∧ (fetchPayoutPool (some accPoolOverclaimed)).isSome := by
  decide

/-- C6 amended: `fetchPayoutPool` always returns
`availableToClaim = Number(total_deposited - total_claimed)` — exactly
the difference when `total_claimed ≤ total_deposited` (and the difference
is below 2^53), and silently the negative difference when
`total_claimed > total_deposited`. -/
theorem payout_pool_available_formula (pk td tc : Nat)
    (htd : td < 2 ^ 64) (htc : tc < 2 ^ 64) :
    fetchPayoutPool (some ⟨pk, payoutPoolBytes td tc⟩) =
      some { pubkey := pk, royaltyListing := 0, creator := 0,
             totalDeposited := f64round td, totalClaimed := f64round tc,
             availableToClaim := jsNumInt ((td : Int) - (tc : Int)),
             depositedAt := 0, period := 0 }
    ∧ (tc ≤ td → td - tc < 2 ^ 53 →
        jsNumInt ((td : Int) - (tc : Int)) = ((td - tc : Nat) : Int))
    ∧ (td < tc → tc - td < 2 ^ 53 →
        jsNumInt ((td : Int) - (tc : Int)) = -((tc - td : Nat) : Int)) := by
  refine ⟨parsePayoutPool_wellFormed pk td tc htd htc, ?_, ?_⟩
  · intro h1 h2
    unfold jsNumInt
    rw [if_pos (by omega)]
    have hx : ((td : Int) - (tc : Int)).toNat = td - tc := by omega
    rw [hx, f64round_of_lt _ h2]
  · intro h1 h2
    unfold jsNumInt
    rw [if_neg (by omega)]
    have hx : (-((td : Int) - (tc : Int))).toNat = tc - td := by omega
    rw [hx, f64round_of_lt _ h2]

/-- Witness for C6's amended statement. -/
theorem payout_pool_available_formula_witness :
    fetchPayoutPool (some ⟨6, payoutPoolBytes 10 3⟩) =
      some { pubkey := 6, royaltyListing := 0, creator := 0,
             totalDeposited := 10, totalClaimed := 3, availableToClaim := 7,
             depositedAt := 0, period := 0 } :=
  (payout_pool_available_formula 6 10 3 (by decide) (by decide)).1

/-- C7 counterexample: the client decode path stores the price through a
double — the buffer carries the exact 64-bit value 2^53 + 1 at the price
offset, but the decoded record holds 2^53. -/
theorem price_above_2pow53_loses_precision :
    readU64 accHugePrice.data 94 = some 9007199254740993
    ∧ (parseListingClient accHugePrice).map (fun r => r.price)
      = some 9007199254740992 := by
  decide

/-- C7 amended: the server decoder yields the 64-bit fields exactly (as
big integers), while the client decoder passes them through JavaScript
`Number`, which is exact only below 2^53. -/
theorem codec_price_precision (pk price bps dur ts rb rbps st : Nat)
    (hprice : price < 2 ^ 64) (hbps : bps < 2 ^ 16) (hdur : dur < 2 ^ 64)
    (hts : ts < 2 ^ 64) (hrbps : rbps < 2 ^ 16) :
    (parseListingAccount ⟨pk, serverListingBytes price bps dur ts rb rbps st⟩).map
      (fun r => (r.price, r.durationSeconds, r.createdAt)) = some (price, dur, ts)
    ∧ (parseListingClient ⟨pk, clientListingBytes bps dur ts price rb rbps st⟩).map
      (fun r => r.price) = some (f64round price)
    ∧ (price < 2 ^ 53 → f64round price = price) := by
  refine ⟨?_, ?_, fun h => f64round_of_lt price h⟩
  · rw [parseListingAccount_wellFormed pk price bps dur ts rb rbps st hprice hbps hdur hts hrbps]
    rfl
  · rw [parseListingClient_wellFormed pk bps dur ts price rb rbps st hbps hdur hts hprice hrbps]
    rfl

/-- Witness for C7's amended statement, at price 2^53 + 1: the server
value is exact, the client value is rounded. -/
theorem codec_price_precision_witness :
    (parseListingAccount ⟨22, serverListingBytes 9007199254740993 0 0 0 0 0 0⟩).map
      (fun r => (r.price, r.durationSeconds, r.createdAt))
      = some (9007199254740993, 0, 0)
    ∧ (parseListingClient ⟨22, clientListingBytes 0 0 0 9007199254740993 0 0 0⟩).map
      (fun r => r.price) = some (f64round 9007199254740993) :=
  ⟨(codec_price_precision 22 9007199254740993 0 0 0 0 0 0
      (by decide) (by decide) (by decide) (by decide) (by decide)).1,
   (codec_price_precision 22 9007199254740993 0 0 0 0 0 0
      (by decide) (by decide) (by decide) (by decide) (by decide)).2.1⟩

/-- C8 counterexample: a 105-byte buffer truncated exactly before the
status byte does not decode to Corrupt/null — the client parser returns a
full record with status Unknown (the out-of-bounds status index reads
`undefined`). -/
theorem truncated_before_status_not_corrupt :
    accNoStatusByte.data.length = 105
    ∧ (parseListingClient accNoStatusByte).map (fun r => r.status) = some .unknown
    ∧ (parseListingClient accNoStatusByte).isSome := by
  decide

/-- C8 amended: a corrupt account is skipped at the collection level while
the remaining accounts decode; buffers shorter than the fixed prefix, and
buffers whose declared uri length exceeds the remaining length, decode to
null — with the one exception that a buffer truncated exactly before the
status byte decodes to a record with status Unknown. -/
theorem decode_truncation_and_skip :
    (∀ xs ys : List Account, ∀ bad : Account, listingFilterClient bad = true →
      parseListingClient bad = none →
      decodeListingsClient (xs ++ bad :: ys) = decodeListingsClient (xs ++ ys))
    ∧ (∀ a : Account, a.data.length < 76 → parseListingClient a = none)
    ∧ (∀ a : Account, ∀ L : Nat, readU32 a.data 72 = some L → a.data.length < 76 + L →
        parseListingClient a = none)
    ∧ (∀ pk bps dur ts price rb rbps : Nat, bps < 2 ^ 16 → dur < 2 ^ 64 → ts < 2 ^ 64 →
        price < 2 ^ 64 → rbps < 2 ^ 16 →
        (parseListingClient ⟨pk, clientListingBytesNoStatus bps dur ts price rb rbps⟩).map
          (fun r => r.status) = some .unknown) := by
  refine ⟨?_, ?_, ?_, ?_⟩
  · intro xs ys bad h1 h2
    simp [decodeListingsClient, List.filter_append, List.filter_cons, h1, h2,
      List.filterMap_append, List.filterMap_cons]
  · intro a h
    have h0 : readU32 a.data 72 = none := by
      simp only [readU32, readLE]
      rw [if_neg (by omega)]
    simp [parseListingClient, h0]
  · intro a L hL hlen
    have h0 : readU16 a.data (76 + L) = none := by
      simp only [readU16, readLE]
      rw [if_neg (by omega)]
    simp [parseListingClient, hL, h0]
  · intro pk bps dur ts price rb rbps h1 h2 h3 h4 h5
    rw [parseListingClient_noStatus pk bps dur ts price rb rbps h1 h2 h3 h4 h5]
    rfl

/-- Witness for C8's amended statement: a corrupt account between two
good ones is skipped; a three-byte account decodes to null. -/
theorem decode_truncation_and_skip_witness :
    decodeListingsClient [accActiveClient, accShortDisc] = [recActiveClient]
    ∧ parseListingClient accTiny = none :=
  ⟨(decode_truncation_and_skip.1 [accActiveClient] [] accShortDisc
      (by decide) (by decide)).trans (by decide),
   decode_truncation_and_skip.2.1 accTiny (by decide)⟩

/-- C9: each instruction payload is the operation's fixed 8-byte
discriminator followed by its arguments packed little-endian with no
padding: create-listing packs uri (length + bytes), percentage bps (2),
duration (8), price (8), resale flag (1 byte 0/1), royalty bps (2);
deposit-payout packs one 8-byte amount; list-for-resale one 8-byte price;
buy-listing, claim-payout and cancel-resale are the bare discriminator. -/
theorem instruction_payloads_spec (args : CreateListingArgs) (amount rsPrice : Nat)
    (hu : args.metadataUri.length < 2 ^ 32) (hb : args.percentageBps < 2 ^ 16)
    (hd : args.durationSeconds < 2 ^ 64) (hp : args.price < 2 ^ 64)
    (hr : args.creatorRoyaltyBps < 2 ^ 16) (ha : amount < 2 ^ 64) (hq : rsPrice < 2 ^ 64) :
    createListingData args = some (specCreateListingPayload args)
    ∧ depositPayoutData amount = some (DEPOSIT_PAYOUT_DISCRIMINATOR ++ leBytes 8 amount)
    ∧ listForResaleData rsPrice = some (LIST_FOR_RESALE_DISCRIMINATOR ++ leBytes 8 rsPrice)
    ∧ buyListingData = BUY_LISTING_DISCRIMINATOR
    ∧ claimPayoutData = CLAIM_PAYOUT_DISCRIMINATOR
    ∧ cancelResaleData = CANCEL_RESALE_DISCRIMINATOR := by
  have h1 : args.metadataUri.length < 4294967296 := by omega
  have h2 : args.percentageBps < 65536 := by omega
  have h3 : args.durationSeconds < 18446744073709551616 := by omega
  have h4 : args.price < 18446744073709551616 := by omega
  have h5 : args.creatorRoyaltyBps < 65536 := by omega
  have h6 : amount < 18446744073709551616 := by omega
  have h7 : rsPrice < 18446744073709551616 := by omega
  refine ⟨?_, ?_, ?_, rfl, rfl, rfl⟩
  · simp [createListingData, specCreateListingPayload, wu32, wu16, wu64, h1, h2, h3, h4, h5]
  · simp [depositPayoutData, wu64, h6]
  · simp [listForResaleData, wu64, h7]

/-- Witness for C9 at concrete arguments. -/
theorem instruction_payloads_spec_witness :
    createListingData argsValid = some (specCreateListingPayload argsValid)
    ∧ depositPayoutData 42 = some (DEPOSIT_PAYOUT_DISCRIMINATOR ++ leBytes 8 42)
    ∧ listForResaleData 77 = some (LIST_FOR_RESALE_DISCRIMINATOR ++ leBytes 8 77)
    ∧ buyListingData = BUY_LISTING_DISCRIMINATOR
    ∧ claimPayoutData = CLAIM_PAYOUT_DISCRIMINATOR
    ∧ cancelResaleData = CANCEL_RESALE_DISCRIMINATOR :=
  instruction_payloads_spec argsValid 42 77 (by decide) (by decide) (by decide) (by decide)
    (by decide) (by decide) (by decide)

/-- C10: when the network fetch throws (and the call reaches the fetch —
forced refresh or cache miss), both collection queries swallow the error
and return the empty array, the same value they return when the program
owns zero accounts; no error reaches their callers. -/
theorem fetch_error_returns_empty (cL : CacheState (List ClientListing))
    (cR : CacheState (List ClientResale)) (f : Bool)
    (hL : f = true ∨ cL = none) (hR : f = true ∨ cR = none) :
    (fetchAllListings cL f (.error ())).1 = []
    ∧ (fetchAllResaleListings cR f (.error ())).1 = []
    ∧ (fetchAllListings cL f (.error ())).1 = (fetchAllListings cL f (.ok [])).1
    ∧ (fetchAllResaleListings cR f (.error ())).1 = (fetchAllResaleListings cR f (.ok [])).1 := by
  cases f with
  | false =>
    have h1 : cL = none := by
      rcases hL with h | h
      · exact absurd h (by simp)
      · exact h
    have h2 : cR = none := by
      rcases hR with h | h
      · exact absurd h (by simp)
      · exact h
    subst h1; subst h2
    exact ⟨rfl, rfl, rfl, rfl⟩
  | true =>
    cases cL <;> cases cR <;> exact ⟨rfl, rfl, rfl, rfl⟩

/-- Witness for C10 on a forced refresh with a throwing fetch. -/
theorem fetch_error_returns_empty_witness :
    (fetchAllListings none true (.error ())).1 = []
    ∧ (fetchAllResaleListings none true (.error ())).1 = []
    ∧ (fetchAllListings none true (.error ())).1 = (fetchAllListings none true (.ok [])).1
    ∧ (fetchAllResaleListings none true (.error ())).1
      = (fetchAllResaleListings none true (.ok [])).1 :=
  fetch_error_returns_empty none none true (Or.inl rfl) (Or.inl rfl)

end Royalties
